import Mathlib

/-!
Shallow embedding of the paletten-cloud-hub control pipeline
(src/controller.rs, src/models.rs, src/db.rs).

Temperatures, humidities and payload floats are modelled as rationals;
MQTT topics and payloads as Lean strings (the repository only compares
them bytewise, and all relevant payloads are ASCII).  Side effects of
the executor (database inserts, MQTT publishes) are modelled as an
explicit trace of `Effect` values; collaborator failures are injected
through an `Env` of success oracles.
-/

namespace PalettenHub

/-- Embeds `HeaterState` from src/models.rs: enum with `Off` and `On`. -/
inductive HeaterState
  | Off
  | On
deriving DecidableEq, Repr

/-- Embeds the strum `Display`/`AsRefStr` encoding of `HeaterState`
(serialize = "off" / "on"). -/
def HeaterState.asStr : HeaterState → String
  | .Off => "off"
  | .On => "on"

/-- Embeds the strum `EnumString` (`FromStr`) decoding of `HeaterState`:
exactly the serialize strings are accepted, anything else is an error
(modelled as `none`). -/
def HeaterState.fromStr : String → Option HeaterState
  | "off" => some HeaterState.Off
  | "on" => some HeaterState.On
  | _ => none

/-- Embeds the `repr(u8)` integer encoding of `HeaterState` from
src/models.rs: `Off = 0`, `On = 1`. -/
def HeaterState.toU8 : HeaterState → Nat
  | .Off => 0
  | .On => 1

/-- Embeds `Heater` from src/models.rs. -/
structure Heater where
  id : String
  name : String
deriving DecidableEq, Repr

/-- Embeds the `HEATERS` registry from src/controller.rs (lazy_static):
three fixed heaters compiled into the process. -/
def HEATERS : List Heater :=
  [ Heater.mk "C4402D" "Spisebord",
    Heater.mk "C431FB" "Sofa",
    Heater.mk "10DB9C" "Soveværelse" ]

/-- Embeds `Measurement` from src/models.rs; the two f64 fields are
modelled as rationals. -/
structure Measurement where
  temperature : ℚ
  humidity : ℚ
deriving DecidableEq, Repr

/-- Embeds `Action` from src/controller.rs. -/
inductive Action
  | SetDesiredTemperature (t : ℚ)
  | SetInsideTemperature (t : ℚ)
  | EnableController (b : Bool)
  | RegisterMeasurement (place : String) (m : Measurement)
  | RegisterHeaterStateChange (heaterId : String) (s : HeaterState)
deriving DecidableEq, Repr

/-- Embeds `State` from src/controller.rs. -/
structure State where
  enabled : Bool
  desired_temperature : Option ℚ
  current_temperature : Option ℚ
deriving DecidableEq, Repr

/-- Embeds `State::default()` (derived `Default`): `false`, `None`, `None`. -/
def State.default : State := State.mk false none none

/-- Embeds `State::get_heater_state` from src/controller.rs:
`desired.zip(current).map(|(d, c)| if d > c { On } else { Off })`. -/
def State.get_heater_state (s : State) : Option HeaterState :=
  match s.desired_temperature, s.current_temperature with
  | some desired, some current =>
      some (if desired > current then HeaterState.On else HeaterState.Off)
  | _, _ => none

/-- The pure control-decision function of (enabled, desired, current):
the composition of the early `!self.state.enabled` return in
`Executor::check_temperature` with `State::get_heater_state`
(src/controller.rs).  `none` means no actuation decision. -/
def controlDecision (s : State) : Option HeaterState :=
  if s.enabled then s.get_heater_state else none

/-- Digit value of an ASCII decimal digit, `none` otherwise. -/
def digitVal (c : Char) : Option Nat :=
  if '0' ≤ c ∧ c ≤ '9' then some (c.toNat - '0'.toNat) else none

/-- Accumulate a decimal digit string into a natural number; `none` on the
first non-digit. -/
def digitsToNat (acc : Nat) : List Char → Option Nat
  | [] => some acc
  | c :: cs =>
    match digitVal c with
    | some d => digitsToNat (acc * 10 + d) cs
    | none => none

/-- Strip a leading sign character, returning (negative?, rest). -/
def splitSign : List Char → Bool × List Char
  | '-' :: cs => (true, cs)
  | '+' :: cs => (false, cs)
  | cs => (false, cs)

/-- Unsigned decimal: digits, optionally followed by a dot and fraction
digits; at least one digit overall. -/
def parseUnsigned (cs : List Char) : Option ℚ :=
  let ip := cs.takeWhile Char.isDigit
  match cs.dropWhile Char.isDigit with
  | [] =>
      if ip.isEmpty then none
      else (digitsToNat 0 ip).map (fun n => (n : ℚ))
  | '.' :: frac =>
      if frac.all Char.isDigit && !(ip.isEmpty && frac.isEmpty) then
        match digitsToNat 0 ip, digitsToNat 0 frac with
        | some i, some f => some ((i : ℚ) + (f : ℚ) / (10 : ℚ) ^ frac.length)
        | _, _ => none
      else none
  | _ => none

/-- Embeds `parse_float_payload` from src/controller.rs
(`payload.escape_ascii().to_string().parse::<f64>()`) on plain decimal
form: optional sign, integer digits, optional fraction.  Exponent,
`inf` and `nan` forms of Rust's float grammar do not occur in the inputs
any claim is about and are left out. -/
def parseFloat (s : String) : Option ℚ :=
  let (neg, cs) := splitSign s.toList
  (parseUnsigned cs).map (fun q => if neg then -q else q)

/-- Strip the list `p` from the front of `cs`; `none` when `p` is not a
prefix of `cs`. -/
def stripPfx : List Char → List Char → Option (List Char)
  | [], cs => some cs
  | _ :: _, [] => none
  | p :: ps, c :: cs => if p = c then stripPfx ps cs else none

/-- Boolean prefix test on char lists (embeds byte-slice `starts_with`). -/
def hasPfx (p cs : List Char) : Bool := (stripPfx p cs).isSome

/-- Uppercase-hex character class `[A-F0-9]` of the heater-id regex in
`Controller::parse_heater_state_change_message` (src/controller.rs). -/
def isHexUpper (c : Char) : Bool :=
  ('A' ≤ c && c ≤ 'F') || ('0' ≤ c && c ≤ '9')

/-- Try the (unanchored) regex `shellies/shelly1-([A-F0-9]-x6)/relay/0` at
the start of `cs`: literal prefix, exactly six uppercase-hex id chars,
literal `/relay/0`.  Returns the captured id. -/
def matchHeaterAt (cs : List Char) : Option String :=
  (stripPfx "shellies/shelly1-".toList cs).bind fun rest =>
    match rest with
    | a :: b :: c :: d :: e :: f :: rest2 =>
        if [a, b, c, d, e, f].all isHexUpper then
          (stripPfx "/relay/0".toList rest2).map fun _ => String.mk [a, b, c, d, e, f]
        else none
    | _ => none

/-- Leftmost unanchored search for the heater-id regex, as the `regex`
crate performs it in `Controller::parse_heater_state_change_message`. -/
def scanHeater : List Char → Option String
  | [] => none
  | c :: cs =>
    match matchHeaterAt (c :: cs) with
    | some heaterId => some heaterId
    | none => scanHeater cs

/-- Leftmost unanchored search for the place regex
`measurement/(inside|outside)` of `Controller::parse_measurement`
(src/controller.rs); alternation tries `inside` first at each position. -/
def findPlace : List Char → Option String
  | [] => none
  | c :: cs =>
    if hasPfx "measurement/inside".toList (c :: cs) then some "inside"
    else if hasPfx "measurement/outside".toList (c :: cs) then some "outside"
    else findPlace cs

/-- Embeds `Controller::parse_measurement` (src/controller.rs): extract the
place from the topic via the regex, then decode the JSON payload.  The
serde_json decoder is an external collaborator and is passed in as
`jsonDec` (`none` models a deserialization error). -/
def parse_measurement (jsonDec : String → Option Measurement)
    (topic payload : String) : Except String (String × Measurement) :=
  match findPlace topic.toList with
  | none => Except.error "Received measurement from unknown place"
  | some place =>
    match jsonDec payload with
    | none => Except.error "Failed to deserialize payload"
    | some m => Except.ok (place, m)

/-- Embeds `Controller::parse_heater_state_change_message`
(src/controller.rs): extract the heater id from the topic via the regex,
then parse the payload as a `HeaterState`. -/
def parse_heater_state_change_message (topic payload : String) :
    Except String (String × HeaterState) :=
  match scanHeater topic.toList with
  | none => Except.error "Received state from unknown heater"
  | some heaterId =>
    match HeaterState.fromStr payload with
    | none => Except.error "payload is not a valid state"
    | some s => Except.ok (heaterId, s)

/-- Embeds `Controller::handle_incoming_message` (src/controller.rs) on a
`Publish` packet with the given topic and payload, dispatching in the
order of the Rust `match` arms.  Non-`Publish` packets take the final
`Ok(None)` branch in the source and are not modelled.  The controller's
own `state.enabled` writes in the `temperature/auto` arms feed only the
log line and are not part of the classification result. -/
def handle_incoming_message (jsonDec : String → Option Measurement)
    (topic payload : String) : Except String (Option Action) :=
  if topic.toList = "temperature/set".toList then
    match parseFloat payload with
    | some t => Except.ok (some (Action.SetDesiredTemperature t))
    | none => Except.error "Failed to parse temperature to float"
  else if topic.toList = "temperature/inside".toList then
    match parseFloat payload with
    | some t => Except.ok (some (Action.SetInsideTemperature t))
    | none => Except.error "Failed to parse temperature to float"
  else if topic.toList = "temperature/auto".toList ∧ payload = "true" then
    Except.ok (some (Action.EnableController true))
  else if topic.toList = "temperature/auto".toList ∧ payload = "false" then
    Except.ok (some (Action.EnableController false))
  else if hasPfx "measurement/".toList topic.toList then
    match parse_measurement jsonDec topic payload with
    | Except.ok (place, m) => Except.ok (some (Action.RegisterMeasurement place m))
    | Except.error e => Except.error e
  else if hasPfx "shellies/".toList topic.toList then
    match parse_heater_state_change_message topic payload with
    | Except.ok (heaterId, s) =>
        Except.ok (some (Action.RegisterHeaterStateChange heaterId s))
    | Except.error e => Except.error e
  else
    Except.ok none

/-- Truncation toward zero on rationals. -/
def ratTrunc (q : ℚ) : ℤ := if 0 ≤ q then ⌊q⌋ else ⌈q⌉

/-- Embeds Rust's `as i64` cast on an `f64` value (used in
`Executor::handle_action` for `RegisterMeasurement`): truncation toward
zero, saturating at the i64 bounds. -/
def f64_as_i64 (q : ℚ) : ℤ :=
  max (-(2 ^ 63)) (min (2 ^ 63 - 1) (ratTrunc q))

/-- MQTT quality-of-service levels used by the repository. -/
inductive MqttQoS
  | AtLeastOnce
  | ExactlyOnce
deriving DecidableEq, Repr

/-- One observable side effect of the executor: a database insert
(src/db.rs `Database::insert_reading` / `Database::insert_heater_state`)
or an MQTT publish (argument order as in `AsyncClient::publish`:
topic, qos, retain, payload). -/
inductive Effect
  | insertReading (location : String) (temperature humidity : ℤ)
  | insertHeaterState (heaterId : String) (s : HeaterState)
  | publish (topic : String) (qos : MqttQoS) (retain : Bool) (payload : String)
deriving DecidableEq, Repr

/-- Success oracles for the external collaborators: whether a publish to a
given heater succeeds, and whether each database insert succeeds.  They
inject `ActuationError` / `PersistenceError` outcomes. -/
structure Env where
  pubResult : Heater → Bool
  insertReadingOk : String → ℤ → ℤ → Bool
  insertHeaterStateOk : String → HeaterState → Bool

/-- An environment in which every collaborator call succeeds. -/
def envAll : Env :=
  Env.mk (fun _ => true) (fun _ _ _ => true) (fun _ _ => true)

/-- The publish effect `Executor::set_heaters_state` issues for one heater:
topic `shellies/shelly1-<id>/relay/0/command`, QoS `AtLeastOnce`,
retain `true`, payload the state's string encoding. -/
def pubEffect (s : HeaterState) (h : Heater) : Effect :=
  Effect.publish ("shellies/shelly1-" ++ h.id ++ "/relay/0/command")
    MqttQoS.AtLeastOnce true s.asStr

/-- The `for heater in HEATERS.iter()` loop body of
`Executor::set_heaters_state` over an arbitrary heater list: publishes in
list order; the first failed publish aborts the loop (`?` on the publish
result).  Returns the attempted publishes and whether the loop finished. -/
def broadcast (pub : Heater → Bool) (s : HeaterState) :
    List Heater → List Effect × Bool
  | [] => ([], true)
  | h :: hs =>
    if pub h then
      let r := broadcast pub s hs
      (pubEffect s h :: r.1, r.2)
    else ([pubEffect s h], false)

/-- Embeds `Executor::set_heaters_state` (src/controller.rs): broadcast the
state to the fixed `HEATERS` registry. -/
def set_heaters_state (pub : Heater → Bool) (s : HeaterState) :
    List Effect × Bool :=
  broadcast pub s HEATERS

/-- Embeds `Executor::check_temperature` (src/controller.rs): return with no
effects when the controller is disabled or `get_heater_state` yields no
decision; otherwise broadcast the decision. -/
def check_temperature (pub : Heater → Bool) (st : State) :
    List Effect × Bool :=
  if !st.enabled then ([], true)
  else
    match st.get_heater_state with
    | none => ([], true)
    | some hs => set_heaters_state pub hs

/-- Embeds `Executor::handle_action` (src/controller.rs): the new control
state, the trace of collaborator calls, and whether handling returned
`Ok`.  `RegisterMeasurement` inserts the measurement's fields cast with
`as i64`; `RegisterHeaterStateChange` inserts the acknowledged state;
the three control inputs store their value and re-run
`check_temperature`. -/
def handle_action (env : Env) (st : State) : Action → State × List Effect × Bool
  | Action.SetDesiredTemperature t =>
    let st2 := { st with desired_temperature := some t }
    (st2, check_temperature env.pubResult st2)
  | Action.SetInsideTemperature t =>
    let st2 := { st with current_temperature := some t }
    (st2, check_temperature env.pubResult st2)
  | Action.EnableController b =>
    let st2 := { st with enabled := b }
    (st2, check_temperature env.pubResult st2)
  | Action.RegisterMeasurement place m =>
    let t := f64_as_i64 m.temperature
    let h := f64_as_i64 m.humidity
    (st, [Effect.insertReading place t h], env.insertReadingOk place t h)
  | Action.RegisterHeaterStateChange heaterId s =>
    (st, [Effect.insertHeaterState heaterId s],
      env.insertHeaterStateOk heaterId s)

/-- Embeds `Executor::run_until_completion` (src/controller.rs) on a finite
list of received actions: each action is handled in order; a handling
error is logged and does not stop the loop (the `if let Err` branch). -/
def run_actions (env : Env) (st : State) : List Action → State × List Effect
  | [] => (st, [])
  | a :: rest =>
    let r := handle_action env st a
    let r2 := run_actions env r.1 rest
    (r2.1, r.2.1 ++ r2.2)

/-- Capacity of the `Action` channel created in `create`
(src/controller.rs): `channel::<Action>(10)`. -/
def actionQueueCapacity : Nat := 10

/-- One interaction with the action queue: the ingestor sends an action, or
the executor receives one. -/
inductive QOp
  | send (a : Action)
  | recv
deriving DecidableEq, Repr

/-- Observable state of the action queue: the buffered actions together
with the log of everything sent and everything received.  Models the
tokio bounded mpsc channel connecting `Controller` and `Executor`
(an external collaborator; FIFO with blocking send at capacity). -/
structure QState where
  buffer : List Action
  sent : List Action
  received : List Action
deriving DecidableEq, Repr

/-- The empty queue. -/
def qInit : QState := QState.mk [] [] []

/-- A send: enqueues at the back when the buffer is below capacity;
`none` models the sender suspending on a full queue (the action is not
dropped, the send simply has not happened yet). -/
def qSend (cap : Nat) (s : QState) (a : Action) : Option QState :=
  if s.buffer.length < cap then
    some (QState.mk (s.buffer ++ [a]) (s.sent ++ [a]) s.received)
  else none

/-- A receive: dequeues from the front; `none` models the executor
suspending on an empty queue. -/
def qRecv (s : QState) : Option QState :=
  match s.buffer with
  | [] => none
  | a :: rest => some (QState.mk rest s.sent (s.received ++ [a]))

/-- Run a sequence of queue interactions; `none` when some step would have
to suspend. -/
def runQueue (cap : Nat) (s : QState) : List QOp → Option QState
  | [] => some s
  | QOp.send a :: ops =>
    match qSend cap s a with
    | some s2 => runQueue cap s2 ops
    | none => none
  | QOp.recv :: ops =>
    match qRecv s with
    | some s2 => runQueue cap s2 ops
    | none => none

/-- An environment in which every collaborator call fails. -/
def env0 : Env :=
  Env.mk (fun _ => false) (fun _ _ _ => false) (fun _ _ => false)

/-- The publish oracle that succeeds only for the first registered heater. -/
def pubFail2 : Heater → Bool := fun h => h.id == "C4402D"

end PalettenHub

namespace PalettenHub

/-- Stripping a list prefix from the list extended by `r` leaves `r`. -/
theorem stripPfx_append (p r : List Char) : stripPfx p (p ++ r) = some r := by
  induction p with
  | nil => simp [stripPfx]
  | cons c cs ih => simp [stripPfx, ih]

/-- The heater-id regex matched at the very start of the topic: a wellformed
heater topic is matched with the six id characters captured. -/
theorem matchHeaterAt_append (a b c d e f : Char)
    (h : [a, b, c, d, e, f].all isHexUpper = true) :
    matchHeaterAt ("shellies/shelly1-".toList ++
        ([a, b, c, d, e, f] ++ "/relay/0".toList))
      = some (String.mk [a, b, c, d, e, f]) := by
  rw [matchHeaterAt, stripPfx_append]
  simp [stripPfx]
  simpa using h

/-- The leftmost unanchored scan returns the match found at position 0. -/
theorem scanHeater_of_matchAt (cs : List Char) (i : String)
    (h : matchHeaterAt cs = some i) : scanHeater cs = some i := by
  cases cs with
  | nil => simp [matchHeaterAt, stripPfx] at h
  | cons c cs => simp [scanHeater, h]

/-- Claim C1: the control decision is `none` unless `enabled = true` and both
temperatures are present; otherwise it is `On` iff desired > current and
`Off` otherwise, so equality of desired and current yields `Off`. -/
theorem claim_C1 (s : State) :
    ((s.enabled = false ∨ s.desired_temperature = none ∨
        s.current_temperature = none) → controlDecision s = none) ∧
    (∀ d c : ℚ, s.enabled = true → s.desired_temperature = some d →
        s.current_temperature = some c →
        controlDecision s = some (if d > c then HeaterState.On else HeaterState.Off)) ∧
    (∀ d : ℚ, s.enabled = true → s.desired_temperature = some d →
        s.current_temperature = some d →
        controlDecision s = some HeaterState.Off) := by
  obtain ⟨e, dt, ct⟩ := s
  refine ⟨?_, ?_, ?_⟩
  · rintro (h | h | h) <;>
      simp_all [controlDecision, State.get_heater_state]
  · rintro d c he hd hc
    simp_all [controlDecision, State.get_heater_state]
  · rintro d he hd hc
    simp_all [controlDecision, State.get_heater_state]

/-- Witness for C1 at a concrete state: disabled state yields no decision. -/
theorem claim_C1_witness :
    controlDecision (State.mk false (some 21) (some 19)) = none :=
  (claim_C1 (State.mk false (some 21) (some 19))).1 (Or.inl rfl)

/-- Claim C7: stable encodings of `HeaterState`: string `off`/`on` both ways,
parsing is a left inverse of printing, and the integer encoding is 0/1. -/
theorem claim_C7 :
    HeaterState.asStr HeaterState.Off = "off" ∧
    HeaterState.asStr HeaterState.On = "on" ∧
    HeaterState.fromStr "off" = some HeaterState.Off ∧
    HeaterState.fromStr "on" = some HeaterState.On ∧
    (∀ s : HeaterState, HeaterState.fromStr (HeaterState.asStr s) = some s) ∧
    HeaterState.toU8 HeaterState.Off = 0 ∧
    HeaterState.toU8 HeaterState.On = 1 := by
  refine ⟨rfl, rfl, rfl, rfl, ?_, rfl, rfl⟩
  intro s
  cases s <;> rfl

end PalettenHub

namespace PalettenHub

/-- Claim C2, counterexample: the claim says the inserted values are
round-to-nearest of the measurement fields, but for the measurement
(temperature 22.9, humidity 40.0) on place "inside" the executor inserts
temperature 22 (the Rust `as i64` cast truncates toward zero), while
round(22.9) = 23. -/
theorem claim_C2_counterexample :
    (handle_action envAll State.default
        (Action.RegisterMeasurement "inside" (Measurement.mk (229 / 10) 40))).2.1
      = [Effect.insertReading "inside" 22 40] ∧
    round ((229 : ℚ) / 10) = 23 ∧
    (handle_action envAll State.default
        (Action.RegisterMeasurement "inside" (Measurement.mk (229 / 10) 40))).2.1
      ≠ [Effect.insertReading "inside" (round ((229 : ℚ) / 10)) 40] := by
  have h1 : (handle_action envAll State.default
      (Action.RegisterMeasurement "inside" (Measurement.mk (229 / 10) 40))).2.1
      = [Effect.insertReading "inside" 22 40] := by
    norm_num [handle_action, f64_as_i64, ratTrunc]
  have h2 : round ((229 : ℚ) / 10) = 23 := by norm_num [round_eq]
  refine ⟨h1, h2, ?_⟩
  rw [h1, h2]
  decide

/-- Claim C2 as amended: handling `RegisterMeasurement(place, m)` makes
exactly one persistence call `insert_reading(place, t, h)`, where `t` and
`h` are `m.temperature` and `m.humidity` cast with Rust `as i64`
(truncation toward zero), not round-to-nearest. -/
theorem claim_C2 (env : Env) (st : State) (place : String) (m : Measurement) :
    (handle_action env st (Action.RegisterMeasurement place m)).2.1
      = [Effect.insertReading place (f64_as_i64 m.temperature)
          (f64_as_i64 m.humidity)] ∧
    (handle_action env st (Action.RegisterMeasurement place m)).2.1.length = 1 :=
  ⟨rfl, rfl⟩

/-- Claim C6: handling `RegisterMeasurement` or `RegisterHeaterStateChange`
leaves the executor's control state unchanged, and the only collaborator
call is the corresponding persistence insert. -/
theorem claim_C6 (env : Env) (st : State) (place : String) (m : Measurement)
    (heaterId : String) (s : HeaterState) :
    (handle_action env st (Action.RegisterMeasurement place m)).1 = st ∧
    (handle_action env st (Action.RegisterHeaterStateChange heaterId s)).1 = st ∧
    (handle_action env st (Action.RegisterMeasurement place m)).2.1
      = [Effect.insertReading place (f64_as_i64 m.temperature)
          (f64_as_i64 m.humidity)] ∧
    (handle_action env st (Action.RegisterHeaterStateChange heaterId s)).2.1
      = [Effect.insertHeaterState heaterId s] :=
  ⟨rfl, rfl, rfl, rfl⟩

/-- Claim C10: a publish on `temperature/auto` whose payload is neither
exactly "true" nor exactly "false" produces no action and no error: it
falls through to the silent-ignore branch. -/
theorem claim_C10 (jsonDec : String → Option Measurement) (payload : String)
    (h1 : payload ≠ "true") (h2 : payload ≠ "false") :
    handle_incoming_message jsonDec "temperature/auto" payload
      = Except.ok none := by
  unfold handle_incoming_message
  rw [if_neg (by decide), if_neg (by decide), if_neg (fun hc => h1 hc.2),
    if_neg (fun hc => h2 hc.2), if_neg (by decide), if_neg (by decide)]

/-- Witness for C10: payload "True" on `temperature/auto` is silently
ignored. -/
theorem claim_C10_witness :
    handle_incoming_message (fun _ => none) "temperature/auto" "True"
      = Except.ok none :=
  claim_C10 (fun _ => none) "True" (by decide) (by decide)

/-- Claim C3, counterexample: the topic `measurement/garage` matches none of
the claimed patterns, yet the ingestor reports a parse failure (unknown
place) instead of silently ignoring the message. -/
theorem claim_C3_counterexample :
    handle_incoming_message (fun _ => none) "measurement/garage" "x"
      = Except.error "Received measurement from unknown place" ∧
    handle_incoming_message (fun _ => none) "measurement/garage" "x"
      ≠ Except.ok none := by
  have h : handle_incoming_message (fun _ => none) "measurement/garage" "x"
      = Except.error "Received measurement from unknown place" := rfl
  exact ⟨h, by rw [h]; exact fun hc => Except.noConfusion hc⟩

/-- Claim C3 as amended: a publish whose topic differs from the three
`temperature/...` topics and does not start with `measurement/` or
`shellies/` produces no action and no error; topics that do start with
one of those prefixes but fail the corresponding pattern instead report
a parse failure (see the counterexample). -/
theorem claim_C3 (jsonDec : String → Option Measurement)
    (topic payload : String)
    (h1 : topic.toList ≠ "temperature/set".toList)
    (h2 : topic.toList ≠ "temperature/inside".toList)
    (h3 : topic.toList ≠ "temperature/auto".toList)
    (h4 : hasPfx "measurement/".toList topic.toList = false)
    (h5 : hasPfx "shellies/".toList topic.toList = false) :
    handle_incoming_message jsonDec topic payload = Except.ok none := by
  unfold handle_incoming_message
  rw [if_neg h1, if_neg h2, if_neg (fun hc => h3 hc.1),
    if_neg (fun hc => h3 hc.1),
    if_neg (fun hc => Bool.noConfusion (h4.symm.trans hc)),
    if_neg (fun hc => Bool.noConfusion (h5.symm.trans hc))]

/-- Witness for C3 at the spec's own example: topic `foo/bar` is silently
ignored. -/
theorem claim_C3_witness :
    handle_incoming_message (fun _ => none) "foo/bar" "x" = Except.ok none :=
  claim_C3 (fun _ => none) "foo/bar" "x" (by decide) (by decide) (by decide)
    (by decide) (by decide)

end PalettenHub

namespace PalettenHub

/-- Claim C4: when a control decision is reached (enabled, both temperatures
present) and every publish succeeds, the executor issues exactly one
retained, at-least-once publish per registered heater — exactly three,
on the heaters' command topics, with the decision's state string as
payload. -/
theorem claim_C4 (env : Env) (st : State) (d c : ℚ)
    (he : st.enabled = true) (hd : st.desired_temperature = some d)
    (hc : st.current_temperature = some c)
    (hp : ∀ h : Heater, env.pubResult h = true) :
    check_temperature env.pubResult st
      = ([Effect.publish "shellies/shelly1-C4402D/relay/0/command"
            MqttQoS.AtLeastOnce true
            (if d > c then HeaterState.On else HeaterState.Off).asStr,
          Effect.publish "shellies/shelly1-C431FB/relay/0/command"
            MqttQoS.AtLeastOnce true
            (if d > c then HeaterState.On else HeaterState.Off).asStr,
          Effect.publish "shellies/shelly1-10DB9C/relay/0/command"
            MqttQoS.AtLeastOnce true
            (if d > c then HeaterState.On else HeaterState.Off).asStr], true)
      ∧ HEATERS.length = 3 := by
  refine ⟨?_, rfl⟩
  simp [check_temperature, he, State.get_heater_state, hd, hc,
    set_heaters_state, HEATERS, broadcast, hp, pubEffect]

/-- Witness for C4 at the spec's example decision cycle: desired 21.5,
current 19.0, enabled — three retained "on" publishes, one per heater. -/
theorem claim_C4_witness :
    check_temperature envAll.pubResult (State.mk true (some (43 / 2)) (some 19))
      = ([Effect.publish "shellies/shelly1-C4402D/relay/0/command"
            MqttQoS.AtLeastOnce true "on",
          Effect.publish "shellies/shelly1-C431FB/relay/0/command"
            MqttQoS.AtLeastOnce true "on",
          Effect.publish "shellies/shelly1-10DB9C/relay/0/command"
            MqttQoS.AtLeastOnce true "on"], true)
      ∧ HEATERS.length = 3 := by
  have h := claim_C4 envAll (State.mk true (some (43 / 2)) (some 19))
    (43 / 2) 19 rfl rfl rfl (fun _ => rfl)
  norm_num [HeaterState.asStr] at h
  exact h

/-- Claim C5: the broadcast loop is all-or-abandon — after the first failed
publish no later heater in registry order is attempted — and the
executor loop handles the next queued action normally after a failed
one (the failed action's effects are followed by the untouched
processing of the rest). -/
theorem claim_C5 :
    (∀ (pub : Heater → Bool) (s : HeaterState) (l1 : List Heater)
        (h : Heater) (l2 : List Heater),
        (∀ x ∈ l1, pub x = true) → pub h = false →
        broadcast pub s (l1 ++ h :: l2)
          = ((l1 ++ [h]).map (pubEffect s), false)) ∧
    (∀ (env : Env) (st : State) (a : Action) (rest : List Action),
        (handle_action env st a).2.2 = false →
        run_actions env st (a :: rest)
          = ((run_actions env (handle_action env st a).1 rest).1,
             (handle_action env st a).2.1
               ++ (run_actions env (handle_action env st a).1 rest).2)) := by
  constructor
  · intro pub s l1
    induction l1 with
    | nil =>
      intro h l2 _ hf
      simp [broadcast, hf]
    | cons x xs ih =>
      intro h l2 hall hf
      have hx : pub x = true := hall x (by simp)
      have ihh := ih h l2 (fun y hy => hall y (by simp [hy])) hf
      simp [broadcast, hx, ihh]
  · intro env st a rest _
    rfl

/-- Witness for C5: with a publish oracle that fails on the second heater,
the broadcast attempts exactly the first two heaters; and the executor,
after an action whose persistence call failed, still processes the
following action. -/
theorem claim_C5_witness :
    broadcast pubFail2 HeaterState.On
        ([Heater.mk "C4402D" "Spisebord"] ++ Heater.mk "C431FB" "Sofa"
          :: [Heater.mk "10DB9C" "Soveværelse"])
      = ([pubEffect HeaterState.On (Heater.mk "C4402D" "Spisebord"),
          pubEffect HeaterState.On (Heater.mk "C431FB" "Sofa")], false) ∧
    run_actions env0 State.default
        [Action.RegisterMeasurement "inside" (Measurement.mk 22 40),
         Action.EnableController true]
      = ((run_actions env0
            (handle_action env0 State.default
              (Action.RegisterMeasurement "inside" (Measurement.mk 22 40))).1
            [Action.EnableController true]).1,
         (handle_action env0 State.default
            (Action.RegisterMeasurement "inside" (Measurement.mk 22 40))).2.1
           ++ (run_actions env0
                (handle_action env0 State.default
                  (Action.RegisterMeasurement "inside" (Measurement.mk 22 40))).1
                [Action.EnableController true]).2) := by
  constructor
  · have h := claim_C5.1 pubFail2 HeaterState.On
      [Heater.mk "C4402D" "Spisebord"] (Heater.mk "C431FB" "Sofa")
      [Heater.mk "10DB9C" "Soveværelse"] (by decide) (by decide)
    simpa using h
  · exact claim_C5.2 env0 State.default
      (Action.RegisterMeasurement "inside" (Measurement.mk 22 40))
      [Action.EnableController true] rfl

end PalettenHub

namespace PalettenHub

/-- The shellies dispatch branch of `handle_incoming_message`: a topic that
reaches it and matches the heater-id regex, together with a payload that
parses as a state, classifies as `RegisterHeaterStateChange`. -/
theorem handle_shellies_ok (jsonDec : String → Option Measurement)
    (l : List Char) (payload : String) (i : String) (s : HeaterState)
    (h1 : l ≠ "temperature/set".toList)
    (h2 : l ≠ "temperature/inside".toList)
    (h3 : l ≠ "temperature/auto".toList)
    (h4 : hasPfx "measurement/".toList l = false)
    (h5 : hasPfx "shellies/".toList l = true)
    (hscan : scanHeater l = some i)
    (hpay : HeaterState.fromStr payload = some s) :
    handle_incoming_message jsonDec (String.mk l) payload
      = Except.ok (some (Action.RegisterHeaterStateChange i s)) := by
  unfold handle_incoming_message
  simp only [String.toList] at h1 h2 h3 h4 h5 ⊢
  rw [if_neg h1, if_neg h2, if_neg (fun hc => h3 hc.1),
    if_neg (fun hc => h3 hc.1),
    if_neg (fun hc => Bool.noConfusion (h4.symm.trans hc)),
    if_pos h5]
  unfold parse_heater_state_change_message
  simp only [String.toList]
  rw [hscan, hpay]

/-- Claim C8, counterexample: the claim allows any 6-character hexadecimal
id, but the regex character class is `[A-F0-9]` — a lowercase-hex id such
as `c4402d` is rejected with a parse error instead of producing
`RegisterHeaterStateChange("c4402d", On)`. -/
theorem claim_C8_counterexample :
    handle_incoming_message (fun _ => none)
        "shellies/shelly1-c4402d/relay/0" "on"
      = Except.error "Received state from unknown heater" ∧
    handle_incoming_message (fun _ => none)
        "shellies/shelly1-c4402d/relay/0" "on"
      ≠ Except.ok (some (Action.RegisterHeaterStateChange "c4402d"
          HeaterState.On)) := by
  have h : handle_incoming_message (fun _ => none)
      "shellies/shelly1-c4402d/relay/0" "on"
      = Except.error "Received state from unknown heater" := rfl
  exact ⟨h, by rw [h]; exact fun hc => Except.noConfusion hc⟩

/-- Claim C8 as amended: for a topic `shellies/shelly1-<id>/relay/0` whose
id consists of six characters from the class `[A-F0-9]` (uppercase hex
digits — lowercase is rejected, see the counterexample), and a payload
that parses as a heater state, the ingestor produces
`RegisterHeaterStateChange(id, state)` and the executor handles it with
exactly one `insert_heater_state(id, state)` call. -/
theorem claim_C8 (jsonDec : String → Option Measurement)
    (a b c d e f : Char) (payload : String) (s : HeaterState)
    (env : Env) (st : State)
    (hhex : [a, b, c, d, e, f].all isHexUpper = true)
    (hpay : HeaterState.fromStr payload = some s) :
    handle_incoming_message jsonDec
        (String.mk ("shellies/shelly1-".toList
          ++ ([a, b, c, d, e, f] ++ "/relay/0".toList))) payload
      = Except.ok (some (Action.RegisterHeaterStateChange
          (String.mk [a, b, c, d, e, f]) s)) ∧
    (handle_action env st
        (Action.RegisterHeaterStateChange (String.mk [a, b, c, d, e, f]) s)).2.1
      = [Effect.insertHeaterState (String.mk [a, b, c, d, e, f]) s] := by
  refine ⟨?_, rfl⟩
  have hlen : ("shellies/shelly1-".toList
      ++ ([a, b, c, d, e, f] ++ "/relay/0".toList)).length = 31 := by
    simp [List.length_append]
  refine handle_shellies_ok jsonDec _ payload _ s ?_ ?_ ?_ ?_ ?_ ?_ hpay
  · intro hc
    have := congrArg List.length hc
    rw [hlen] at this
    simp at this
  · intro hc
    have := congrArg List.length hc
    rw [hlen] at this
    simp at this
  · intro hc
    have := congrArg List.length hc
    rw [hlen] at this
    simp at this
  · simp [hasPfx, stripPfx]
  · simp [hasPfx, stripPfx]
  · exact scanHeater_of_matchAt _ _ (matchHeaterAt_append a b c d e f hhex)

/-- Witness for C8 at the spec's example: topic
`shellies/shelly1-C4402D/relay/0` with payload "on" yields the action for
heater C4402D in state On, and exactly one matching persistence call. -/
theorem claim_C8_witness :
    handle_incoming_message (fun _ => none)
        (String.mk ("shellies/shelly1-".toList
          ++ (['C', '4', '4', '0', '2', 'D'] ++ "/relay/0".toList))) "on"
      = Except.ok (some (Action.RegisterHeaterStateChange
          (String.mk ['C', '4', '4', '0', '2', 'D']) HeaterState.On)) ∧
    (handle_action envAll State.default
        (Action.RegisterHeaterStateChange
          (String.mk ['C', '4', '4', '0', '2', 'D']) HeaterState.On)).2.1
      = [Effect.insertHeaterState (String.mk ['C', '4', '4', '0', '2', 'D'])
          HeaterState.On] :=
  claim_C8 (fun _ => none) 'C' '4' '4' '0' '2' 'D' "on" HeaterState.On
    envAll State.default (by decide) (by decide)

/-- The queue invariant: every reachable queue state satisfies
"everything sent is everything received followed by what is still
buffered", and the buffer never exceeds the capacity. -/
theorem runQueue_inv (cap : Nat) (ops : List QOp) (s s2 : QState)
    (hs : s.sent = s.received ++ s.buffer) (hb : s.buffer.length ≤ cap)
    (h : runQueue cap s ops = some s2) :
    s2.sent = s2.received ++ s2.buffer ∧ s2.buffer.length ≤ cap := by
  induction ops generalizing s with
  | nil =>
    simp [runQueue] at h
    exact h ▸ ⟨hs, hb⟩
  | cons op ops ih =>
    cases op with
    | send a =>
      rw [runQueue] at h
      unfold qSend at h
      by_cases hlt : s.buffer.length < cap
      · rw [if_pos hlt] at h
        exact ih (QState.mk (s.buffer ++ [a]) (s.sent ++ [a]) s.received)
          (by simp [hs]) (by simp; omega) h
      · rw [if_neg hlt] at h
        exact absurd h (by simp)
    | recv =>
      rw [runQueue] at h
      unfold qRecv at h
      cases hbuf : s.buffer with
      | nil =>
        rw [hbuf] at h
        exact absurd h (by simp)
      | cons a rest =>
        rw [hbuf] at h
        refine ih (QState.mk rest s.sent (s.received ++ [a])) ?_ ?_ h
        · simp [hs, hbuf]
        · have hlb := hb
          rw [hbuf] at hlb
          simp at hlb ⊢
          omega

/-- Claim C9: the action queue created in `create` has fixed capacity
exactly 10, and along every run of queue interactions the sequence of
actions received by the executor is an in-order prefix of the sequence
sent by the ingestor — everything sent is everything received followed
by what is still buffered, with no reordering and no drop — while the
buffer stays within capacity (a send against a full buffer suspends
rather than dropping). -/
theorem claim_C9 :
    actionQueueCapacity = 10 ∧
    ∀ (ops : List QOp) (s2 : QState),
      runQueue actionQueueCapacity qInit ops = some s2 →
      s2.sent = s2.received ++ s2.buffer ∧
      s2.buffer.length ≤ actionQueueCapacity :=
  ⟨rfl, fun ops s2 h =>
    runQueue_inv actionQueueCapacity ops qInit s2 rfl (by simp [qInit]) h⟩

/-- Witness for C9 on a concrete run: two sends and one receive leave the
second action buffered, with the received log an in-order prefix of the
sent log. -/
theorem claim_C9_witness :
    (QState.mk [Action.EnableController false]
        [Action.EnableController true, Action.EnableController false]
        [Action.EnableController true]).sent
      = (QState.mk [Action.EnableController false]
          [Action.EnableController true, Action.EnableController false]
          [Action.EnableController true]).received
        ++ (QState.mk [Action.EnableController false]
            [Action.EnableController true, Action.EnableController false]
            [Action.EnableController true]).buffer ∧
    (QState.mk [Action.EnableController false]
        [Action.EnableController true, Action.EnableController false]
        [Action.EnableController true]).buffer.length
      ≤ actionQueueCapacity :=
  claim_C9.2
    [QOp.send (Action.EnableController true),
     QOp.send (Action.EnableController false), QOp.recv]
    (QState.mk [Action.EnableController false]
      [Action.EnableController true, Action.EnableController false]
      [Action.EnableController true]) rfl

end PalettenHub
